import Mathlib

/-!
# CanGuard-AI: verification of the tiered authentication decision engine

Shallow embedding of the decision logic of `AI-Models/tier1.py`,
`AI-Models/tier3.py` and `AI-Models/auth_orchestrator.py`.

Numeric values are modelled as real numbers; behavioural vectors as `List ℝ`.
The learned torch models (the Tier 2 Siamese verifier, the Tier 3 GNN,
the temporal drift tracker and the similarity engine) are external opaque
scorers per the design: they appear as function-valued fields of the state,
and the engine logic that consumes their outputs is embedded faithfully.
Python dicts returned by the tiers are embedded as structures; the decision
strings are embedded as inductive labels (the orchestrator only ever
dispatches on substrings that discriminate exactly these labels).
-/

namespace CanGuard

noncomputable section

/-! ## Numeric helpers (numpy primitives used by the source) -/

/-- `np.radians`: degrees to radians. -/
def radians (x : ℝ) : ℝ := x * Real.pi / 180

/-- `np.arctan2 y x`: quadrant-aware arctangent. -/
def arctan2 (y x : ℝ) : ℝ :=
  if 0 < x then Real.arctan (y / x)
  else if x < 0 then
    (if 0 ≤ y then Real.arctan (y / x) + Real.pi else Real.arctan (y / x) - Real.pi)
  else
    (if 0 < y then Real.pi / 2 else if y < 0 then -(Real.pi / 2) else 0)

/-- `np.count_nonzero` on a 1-D array. -/
def countNonzero : List ℝ → ℕ
  | [] => 0
  | x :: xs => (if x = 0 then 0 else 1) + countNonzero xs

/-- `np.mean` of a 1-D array. -/
def mean (l : List ℝ) : ℝ := l.sum / l.length

/-- Elementwise `np.abs((v - d_ref) / (d_std + 1e-8))`
(`tier1.py`, lines 42 and 59). -/
def zScores : List ℝ → List ℝ → List ℝ → List ℝ
  | v :: vs, r :: rs, s :: ss => |v - r| / (s + 1e-8) :: zScores vs rs ss
  | _, _, _ => []

/-- `np.mean(data, axis=0)`: per-feature mean over a batch of vectors. -/
def meanAxis0 (vs : List (List ℝ)) : List ℝ :=
  (List.range (vs.headD []).length).map (fun j => mean (vs.map (fun v => v.getD j 0)))

/-- `np.std(data, axis=0)`: per-feature population standard deviation. -/
def stdAxis0 (vs : List (List ℝ)) : List ℝ :=
  (List.range (vs.headD []).length).map (fun j =>
    Real.sqrt (mean (vs.map (fun v =>
      (v.getD j 0 - mean (vs.map (fun w => w.getD j 0))) ^ 2))))

/-- `np.linalg.norm` of a 1-D array (Euclidean norm). -/
def normL2 (l : List ℝ) : ℝ := Real.sqrt ((l.map (fun x => x ^ 2)).sum)

/-! ## Tier 1 (`tier1.py`, class `Tier1Authenticator`) -/

/-- The per-request location dict (`loc_data` / `location_info`): coordinate
pairs plus the `is_traveling` key read by the orchestrator's context builder. -/
structure LocData where
  last_login : ℝ × ℝ
  current_session : ℝ × ℝ
  prev_30s : ℝ × ℝ
  latest_30s : ℝ × ℝ
  is_traveling : Bool

/-- `Tier1Authenticator._haversine` (R = 6371 km). -/
def haversine (lat1 lon1 lat2 lon2 : ℝ) : ℝ :=
  let dlat := radians (lat2 - lat1)
  let dlon := radians (lon2 - lon1)
  let a := Real.sin (dlat / 2) ^ 2 +
    Real.cos (radians lat1) * Real.cos (radians lat2) * Real.sin (dlon / 2) ^ 2
  2 * arctan2 (Real.sqrt a) (Real.sqrt (1 - a)) * 6371.0

/-- The travel distance between the last login location and the current
session location (local `dist_login` in `_dynamic_rule_checks`). -/
def distLogin (loc : LocData) : ℝ :=
  haversine loc.last_login.1 loc.last_login.2
    loc.current_session.1 loc.current_session.2

/-- The rule flags appended by `_dynamic_rule_checks` (the five literal
strings of `tier1.py`, lines 53-62). -/
inductive Flag where
  | unusualLoginDistance
  | abnormalSessionSpeed
  | suspiciousAccuracy
  | suspiciousFlightTime
  | suspiciousErrorRate
deriving DecidableEq

/-- The decision strings `Tier1Authenticator.authenticate` can produce. -/
inductive T1Decision where
  | errorNotEnrolled
  | unknown
  | skipInterval
  | pass
  | escalateT2
  | escalateT3
deriving DecidableEq

/-- The dict returned by `Tier1Authenticator.authenticate`: it carries the
keys `"decision"` and `"flags"` and nothing else.  `score?` models the
optional `"score"` key that `auth_orchestrator.py` line 87 reads with
`t1_result.get('score', 1.5)`; `tier1.py` never sets it, so every result
built below has `score? = none`. -/
structure T1Result where
  decision : T1Decision
  flags : List Flag
  score? : Option ℝ
deriving DecidableEq

/-- The mutable fields of a `Tier1Authenticator` object.  The unenrolled
`D_ref = None` / `D_std = None` state is modelled by the empty list (those
fields are only ever read when `is_enrolled` holds). -/
structure Tier1State where
  age : ℕ
  alpha_mean : ℝ
  alpha_std : ℝ
  D_ref : List ℝ
  D_std : List ℝ
  is_enrolled : Bool
  idle_count : ℕ

/-- `Tier1Authenticator.__init__(age)` with the default learning rates
`alpha_mean=0.05`, `alpha_std=0.02`. -/
def Tier1State.init (age : ℕ) : Tier1State :=
  { age := age, alpha_mean := 0.05, alpha_std := 0.02,
    D_ref := [], D_std := [], is_enrolled := false, idle_count := 0 }

/-- `Tier1Authenticator.enroll` with the default `min_samples=5`:
`D_ref` is the per-feature mean, `D_std` the per-feature standard deviation
clamped from below by `1e-2` (`np.maximum(self.D_std, 1e-2)`). -/
def Tier1State.enroll (s : Tier1State) (enrollment_vectors : List (List ℝ)) :
    Tier1State :=
  if enrollment_vectors.length < 5 then s
  else
    { s with
      D_ref := meanAxis0 enrollment_vectors,
      D_std := (stdAxis0 enrollment_vectors).map (fun x => max x 0.01),
      is_enrolled := true }

/-- `Tier1Authenticator._compute_anomaly_score`: `none` iff fewer than 4
features are nonzero, otherwise the mean absolute z-score (multiplied by
1.15 when `age >= 60`) together with the z-score vector. -/
def Tier1State.compute_anomaly_score (s : Tier1State) (v : List ℝ) :
    Option (ℝ × List ℝ) :=
  if countNonzero v < 4 then none
  else
    let z := zScores v s.D_ref s.D_std
    let base := mean z
    some (if s.age ≥ 60 then base * 1.15 else base, z)

/-- `Tier1Authenticator._dynamic_rule_checks`.  Returns the flag list and the
session speed, together with the updated location dict: the source assigns
`loc_data['last_login'] = loc_data['current_session']` in place (line 54),
mutating the caller's dict. -/
def Tier1State.dynamic_rule_checks (s : Tier1State) (v : List ℝ)
    (loc : LocData) : (List Flag × ℝ) × LocData :=
  let flags1 : List Flag :=
    if distLogin loc > 10 then [.unusualLoginDistance] else []
  let loc1 : LocData := { loc with last_login := loc.current_session }
  let speed_kmh := haversine loc.prev_30s.1 loc.prev_30s.2
      loc.latest_30s.1 loc.latest_30s.2 / (30 / 3600)
  let flags2 := flags1 ++ (if speed_kmh > 120 then [.abnormalSessionSpeed] else [])
  let z := zScores v s.D_ref s.D_std
  let flags3 := flags2 ++
    (if v.getD 0 0 > 0 ∧ z.getD 0 0 > 3.0 then [.suspiciousAccuracy] else [])
  let flags4 := flags3 ++
    (if v.getD 1 0 > 0 ∧ z.getD 1 0 > 3.0 then [.suspiciousFlightTime] else [])
  let flags5 := flags4 ++
    (if v.getD 5 0 > 0 ∧ z.getD 5 0 > 3.0 then [.suspiciousErrorRate] else [])
  ((flags5, speed_kmh), loc1)

/-- `Tier1Authenticator._update_profile`: a no-op when the anomaly score is
`None`, at or above 1.5, or fewer than 6 features are nonzero; otherwise the
EMA updates of `D_ref` followed by `D_std` (the latter reads the already
updated `D_ref`, exactly as lines 69-71 do). -/
def Tier1State.update_profile (s : Tier1State) (v : List ℝ) : Tier1State :=
  match s.compute_anomaly_score v with
  | none => s
  | some (score, _) =>
    if score ≥ 1.5 ∨ countNonzero v < 6 then s
    else
      let D_ref1 := List.zipWith
        (fun vi ri => s.alpha_mean * vi + (1 - s.alpha_mean) * ri) v s.D_ref
      let new_std := List.zipWith (fun vi ri => |vi - ri|) v D_ref1
      let D_std1 := List.zipWith
        (fun ni si => s.alpha_std * ni + (1 - s.alpha_std) * si) new_std s.D_std
      { s with D_ref := D_ref1, D_std := D_std1 }

/-- `Tier1Authenticator.authenticate` (thresholds `T_PASS=0.8`,
`T_ESC_T2=2.0`).  Returns the result dict, the mutated authenticator state,
and the (mutated, see `dynamic_rule_checks`) location dict. -/
def Tier1State.authenticate (s : Tier1State) (v : List ℝ) (loc : LocData) :
    T1Result × Tier1State × LocData :=
  if s.is_enrolled = false then
    ({ decision := .errorNotEnrolled, flags := [], score? := none }, s, loc)
  else
    let an := s.compute_anomaly_score v
    let fr := s.dynamic_rule_checks v loc
    let flags := fr.1.1
    let loc1 := fr.2
    match an with
    | none =>
      ({ decision := .skipInterval, flags := flags, score? := none },
       { s with idle_count := s.idle_count + 1 }, loc1)
    | some (an_score, _) =>
      let s0 := { s with idle_count := 0 }
      if an_score < 0.8 ∧ flags = [] then
        ({ decision := .pass, flags := flags, score? := none },
         s0.update_profile v, loc1)
      else if an_score ≥ 2.0 ∨ flags.length > 1 then
        ({ decision := .escalateT3, flags := flags, score? := none }, s0, loc1)
      else
        ({ decision := .escalateT2, flags := flags, score? := none }, s0, loc1)

/-! ## Tier 3 (`tier3.py`, class `Tier3Authenticator`)

The three pre-trained torch models are opaque scorers: `gnn_probs` is the
per-node output of `sigmoid(gnn_model(...))`, `drift_tracker` maps a history
sequence to the predicted `(mu, log_var)` pair, and `similarity_engine` is
the pairwise similarity model.  The decision logic consuming them is
embedded exactly. -/

/-- The decision strings of `Tier3Authenticator.authenticate`. -/
inductive T3Decision where
  | block
  | manualReview
  | passVerified
deriving DecidableEq

/-- The dict returned by `Tier3Authenticator.authenticate`. -/
structure T3Result where
  decision : T3Decision
  final_score : ℝ

/-- State of a `Tier3Authenticator` object. -/
structure Tier3State where
  user_id_to_idx : String → Option ℕ
  gnn_probs : ℕ → ℝ
  drift_tracker : List (List ℝ) → List ℝ × List ℝ
  similarity_engine : List ℝ → List ℝ → ℝ
  user_history : String → Option (List (List ℝ))

/-- `Tier3Authenticator.enroll_user_history`: `deque(historical, maxlen=20)`
keeps the last 20 entries of the iterable. -/
def Tier3State.enroll_user_history (t : Tier3State) (uid : String)
    (historical : List (List ℝ)) : Tier3State :=
  { t with user_history := fun u =>
      if u = uid then some (historical.drop (historical.length - 20))
      else t.user_history u }

/-- `deque.append` on a deque with `maxlen=20`: appends on the right and
evicts from the left when over capacity. -/
def dequeAppend20 (h : List (List ℝ)) (v : List ℝ) : List (List ℝ) :=
  (h ++ [v]).drop (h.length + 1 - 20)

/-- `Tier3Authenticator._get_gnn_risk`: 0.1 when the user id is not in the
graph's user map, otherwise the model's sigmoid probability for the node. -/
def Tier3State.get_gnn_risk (t : Tier3State) (uid : String) : ℝ :=
  match t.user_id_to_idx uid with
  | none => 0.1
  | some idx => t.gnn_probs idx

/-- Elementwise `0.5 * (log_var + (v_test - mu)**2 / exp(log_var))`
(`tier3.py`, line 579). -/
def nllList : List ℝ → List ℝ → List ℝ → List ℝ
  | m :: ms, lv :: lvs, v :: vs =>
    0.5 * (lv + (v - m) ^ 2 / Real.exp lv) :: nllList ms lvs vs
  | _, _, _ => []

/-- The drift-anomaly signal of `Tier3Authenticator.authenticate`
(lines 573-581): defaults to 0.1 unless the stored history has more than 5
entries (a missing or empty deque is falsy in `if history and len(history) > 5`,
and is covered by the length test), otherwise the mean per-feature
negative log-likelihood under the drift tracker's prediction, divided by the
normalizer 5.0 and clamped at 1.0. -/
def Tier3State.drift_anomaly (t : Tier3State) (uid : String) (v_test : List ℝ) :
    ℝ :=
  match t.user_history uid with
  | none => 0.1
  | some history =>
    if history.length > 5 then
      let ml := t.drift_tracker history
      min (mean (nllList ml.1 ml.2 v_test) / 5.0) 1.0
    else 0.1

/-- `Tier3Authenticator.authenticate`: gathers the three risk signals, fuses
them with the fixed weights `{'gnn': 0.5, 'drift': 0.2, 'similarity': 0.3}`,
thresholds the final score, and appends the test vector to the user's rolling
history when one exists. -/
def Tier3State.authenticate (t : Tier3State) (uid : String)
    (v_test v_ref : List ℝ) : T3Result × Tier3State :=
  let gnn_risk := t.get_gnn_risk uid
  let drift := t.drift_anomaly uid v_test
  let sim_score := t.similarity_engine v_ref v_test
  let similarity_risk := 1.0 - sim_score
  let final_score := gnn_risk * 0.5 + drift * 0.2 + similarity_risk * 0.3
  let decision : T3Decision :=
    if final_score > 0.6 then .block
    else if final_score > 0.35 then .manualReview
    else .passVerified
  let t1 : Tier3State :=
    match t.user_history uid with
    | none => t
    | some h =>
      { t with user_history := fun u =>
          if u = uid then some (dequeAppend20 h v_test) else t.user_history u }
  (⟨decision, final_score⟩, t1)

/-! ## Orchestrator (`auth_orchestrator.py`, class `UnifiedAuthenticator`)

The Tier 2 scaler and Siamese verifier are opaque (`scaler`, `t2_model`). -/

/-- Tier label of a response (`"T1"`, `"T2"`, `"T3"`, `"System"`). -/
inductive Tier where
  | t1
  | t2
  | t3
  | system
deriving DecidableEq

/-- Decision value of a response: a Tier 1 decision string, Tier 2's
`"PASS"`, a Tier 3 decision string, or `"UNKNOWN_STATE"`. -/
inductive RespDecision where
  | t1 (d : T1Decision)
  | t2Pass
  | t3 (d : T3Decision)
  | unknownState
deriving DecidableEq

/-- The response dict of `UnifiedAuthenticator.authenticate_session`:
`score` is Tier 2's optional `"score"` key, `final_score` Tier 3's. -/
structure Response where
  tier : Tier
  decision : RespDecision
  score : Option ℝ
  final_score : Option ℝ

/-- State of the `UnifiedAuthenticator`. -/
structure Orchestrator where
  user_profiles : String → Option Tier1State
  scaler : List ℝ → List ℝ
  t2_model : List ℝ → List ℝ → List ℝ → ℝ
  t3 : Tier3State

/-- Elementwise vector difference (numpy broadcasting `v_ref - v_test`). -/
def listSub : List ℝ → List ℝ → List ℝ
  | a :: as_, b :: bs => (a - b) :: listSub as_ bs
  | _, _ => []

/-- `UnifiedAuthenticator._create_context_vector`: the 5-element context
vector `[distance, age/100, t1_score, is_traveling, 0.0]` with
`distance = ‖v_ref − v_test‖ / (‖v_ref‖ + 1e-8)`. -/
def create_context_vector (v_ref v_test : List ℝ) (age : ℕ) (t1_score : ℝ)
    (is_traveling : Bool) : List ℝ :=
  let distance := normL2 (listSub v_ref v_test) / (normL2 v_ref + 1e-8)
  [distance, (age : ℝ) / 100.0, t1_score, if is_traveling then 1 else 0, 0.0]

/-- `UnifiedAuthenticator.enroll_user`: no-op for an already enrolled id,
otherwise creates a fresh Tier 1 authenticator, enrolls it on the Tier 1
samples, and seeds Tier 3's drift history. -/
def Orchestrator.enroll_user (o : Orchestrator) (uid : String) (age : ℕ)
    (t1_samples : List (List ℝ)) (t3_history : List (List ℝ)) : Orchestrator :=
  if (o.user_profiles uid).isSome then o
  else
    let t1 := (Tier1State.init age).enroll t1_samples
    { o with
      user_profiles := fun u => if u = uid then some t1 else o.user_profiles u,
      t3 := o.t3.enroll_user_history uid t3_history }

/-- An authentication request from the client. -/
structure Request where
  user_id : String
  age : ℕ
  behavioral_vector : List ℝ
  location_info : LocData

/-- `UnifiedAuthenticator.authenticate_session`.  A fresh user id is
auto-enrolled by replicating the incoming sample (5 Tier 1 samples, 15
history samples).  The dispatch on the Tier 1 decision string mirrors the
substring tests of lines 82-103 (`"PASS" in decision`, `"SKIP" in decision`,
`"ESCALATE TO T2" in decision`, `"ESCALATE TO T3" in decision`), which
discriminate exactly the Tier 1 labels; any other label falls through to
`UNKNOWN_STATE`.  `v_ref` is captured before the Tier 1 call, as in the
source (line 76). -/
def Orchestrator.authenticate_session (o : Orchestrator) (req : Request) :
    Response × Orchestrator :=
  let o1 :=
    if (o.user_profiles req.user_id).isSome then o
    else o.enroll_user req.user_id req.age
      (List.replicate 5 req.behavioral_vector)
      (List.replicate 15 req.behavioral_vector)
  match o1.user_profiles req.user_id with
  | none =>
    -- dead branch: `enroll_user` always stores a profile for the id
    (⟨.system, .unknownState, none, none⟩, o1)
  | some user_t1 =>
    let v_ref := user_t1.D_ref
    let tr := user_t1.authenticate req.behavioral_vector req.location_info
    let t1_result := tr.1
    let o2 : Orchestrator := { o1 with user_profiles := fun u =>
        if u = req.user_id then (some tr.2.1) else o1.user_profiles u }
    match t1_result.decision with
    | .pass => (⟨.t1, .t1 .pass, none, none⟩, o2)
    | .skipInterval => (⟨.t1, .t1 .skipInterval, none, none⟩, o2)
    | .escalateT2 =>
      let context_vec := create_context_vector v_ref req.behavioral_vector
        req.age (t1_result.score?.getD 1.5) req.location_info.is_traveling
      let t2_score := o2.t2_model (o2.scaler v_ref)
        (o2.scaler req.behavioral_vector) context_vec
      if t2_score ≥ 0.8 then
        (⟨.t2, .t2Pass, some t2_score, none⟩, o2)
      else
        let r3 := o2.t3.authenticate req.user_id req.behavioral_vector v_ref
        (⟨.t3, .t3 r3.1.decision, none, some r3.1.final_score⟩,
         { o2 with t3 := r3.2 })
    | .escalateT3 =>
      let r3 := o2.t3.authenticate req.user_id req.behavioral_vector v_ref
      (⟨.t3, .t3 r3.1.decision, none, some r3.1.final_score⟩,
       { o2 with t3 := r3.2 })
    | _ => (⟨.system, .unknownState, none, none⟩, o2)

/-! ## General lemmas about the embedded operations -/

/-- The haversine distance from a point to itself is zero. -/
theorem haversine_self (lat lon : ℝ) : haversine lat lon lat lon = 0 := by
  have h0 : arctan2 0 1 = 0 := by
    unfold arctan2
    rw [if_pos (by norm_num : (0 : ℝ) < 1), zero_div, Real.arctan_zero]
  unfold haversine radians
  simp only [sub_self, zero_mul, zero_div, Real.sin_zero]
  norm_num [h0]

/-- `Tier1Authenticator.authenticate` never sets the `"score"` key of the
result dict. -/
theorem t1_result_score_none (s : Tier1State) (v : List ℝ) (loc : LocData) :
    (s.authenticate v loc).1.score? = none := by
  unfold Tier1State.authenticate
  cases he : s.is_enrolled
  · simp [he]
  · rw [if_neg (by simp : ¬(true = false))]
    rcases hc : s.compute_anomaly_score v with _ | ⟨sc, z⟩
    · simp [hc]
    · simp only [hc]
      split
      · rfl
      · split <;> rfl

/-- `_dynamic_rule_checks` always rewrites `last_login` to the current
session coordinates and touches nothing else in the location dict. -/
theorem dynamic_rule_checks_loc (s : Tier1State) (v : List ℝ) (loc : LocData) :
    (s.dynamic_rule_checks v loc).2 =
      { loc with last_login := loc.current_session } := by
  unfold Tier1State.dynamic_rule_checks
  rfl

/-- On an enrolled profile, `authenticate` hands back the location dict
produced by `_dynamic_rule_checks` in every branch. -/
theorem authenticate_loc (s : Tier1State) (v : List ℝ) (loc : LocData)
    (hen : s.is_enrolled = true) :
    (s.authenticate v loc).2.2 =
      { loc with last_login := loc.current_session } := by
  unfold Tier1State.authenticate
  rw [hen, if_neg (by simp : ¬(true = false))]
  rcases hc : s.compute_anomaly_score v with _ | ⟨sc, z⟩
  · simp only [hc, dynamic_rule_checks_loc]
  · simp only [hc, dynamic_rule_checks_loc]
    split
    · rfl
    · split <;> rfl

/-- The z-score of a feature against a reference equal to itself is zero. -/
theorem zScores_self (v ss : List ℝ) :
    zScores v v ss = List.replicate (min v.length ss.length) 0 := by
  induction v generalizing ss with
  | nil => simp [zScores]
  | cons a as ih =>
    cases ss with
    | nil => simp [zScores]
    | cons b bs =>
      simp only [zScores, sub_self, abs_zero, zero_div, List.length_cons, ih]
      rw [Nat.succ_min_succ, List.replicate_succ]

/-- Entries of the z-score vector are nonnegative when the deviation scales
are. -/
theorem zScores_nonneg (v rs ss : List ℝ) (hss : ∀ x ∈ ss, 0 ≤ x) :
    ∀ y ∈ zScores v rs ss, 0 ≤ y := by
  induction v generalizing rs ss with
  | nil => simp [zScores]
  | cons a as ih =>
    cases rs with
    | nil => simp [zScores]
    | cons r rs2 =>
      cases ss with
      | nil => simp [zScores]
      | cons b bs =>
        intro y hy
        simp only [zScores, List.mem_cons] at hy
        rcases hy with rfl | hy
        · have hb : (0 : ℝ) ≤ b := hss b (by simp)
          have : (0 : ℝ) < b + 1e-8 := by
            have : (0 : ℝ) < 1e-8 := by norm_num
            linarith
          exact div_nonneg (abs_nonneg _) this.le
        · exact ih rs2 bs (fun x hx => hss x (by simp [hx])) y hy

/-- The mean of a list of nonnegative reals is nonnegative. -/
theorem mean_nonneg (l : List ℝ) (h : ∀ x ∈ l, 0 ≤ x) : 0 ≤ mean l := by
  unfold mean
  exact div_nonneg (List.sum_nonneg h) (Nat.cast_nonneg _)

/-- The mean of a constant-zero list is zero. -/
theorem mean_replicate_zero (n : ℕ) : mean (List.replicate n (0 : ℝ)) = 0 := by
  unfold mean
  simp

/-- Reading a list back off its index range reproduces the list. -/
theorem map_getD_range (l : List ℝ) :
    (List.range l.length).map (fun j => l.getD j 0) = l := by
  apply List.ext_getElem (by simp)
  intro i h1 h2
  simp [List.getD_eq_getElem?_getD, List.getElem?_eq_getElem h2]

/-- The per-feature mean of five identical samples is the sample itself. -/
theorem meanAxis0_replicate (v : List ℝ) :
    meanAxis0 (List.replicate 5 v) = v := by
  unfold meanAxis0
  have hh : (List.replicate 5 v).headD [] = v := rfl
  rw [hh]
  have hm : ∀ j ∈ List.range v.length,
      mean ((List.replicate 5 v).map (fun w => w.getD j 0)) = v.getD j 0 := by
    intro j _
    rw [List.map_replicate]
    unfold mean
    rw [List.sum_replicate, List.length_replicate, nsmul_eq_mul]
    push_cast
    ring
  rw [List.map_congr_left hm, map_getD_range]

/-- The per-feature standard deviation of five identical samples is zero. -/
theorem stdAxis0_replicate (v : List ℝ) :
    stdAxis0 (List.replicate 5 v) = List.replicate v.length 0 := by
  unfold stdAxis0
  have hh : (List.replicate 5 v).headD [] = v := rfl
  rw [hh]
  have hm : ∀ j ∈ List.range v.length,
      Real.sqrt (mean ((List.replicate 5 v).map (fun w =>
        (w.getD j 0 - mean ((List.replicate 5 v).map (fun w2 => w2.getD j 0))) ^ 2))) = 0 := by
    intro j _
    have hmean : mean ((List.replicate 5 v).map (fun w2 => w2.getD j 0)) =
        v.getD j 0 := by
      rw [List.map_replicate]
      unfold mean
      rw [List.sum_replicate, List.length_replicate, nsmul_eq_mul]
      push_cast
      ring
    rw [hmean, List.map_replicate]
    norm_num [mean_replicate_zero]
  rw [List.map_congr_left hm]
  simp

/-- The bootstrap enrollment of `authenticate_session`: enrolling a fresh
authenticator on five copies of one sample sets `D_ref` to the sample itself
and `D_std` to the clamp floor `0.01` everywhere. -/
theorem enroll_replicate (age : ℕ) (v : List ℝ) :
    (Tier1State.init age).enroll (List.replicate 5 v) =
      { age := age, alpha_mean := 0.05, alpha_std := 0.02,
        D_ref := v, D_std := List.replicate v.length 0.01,
        is_enrolled := true, idle_count := 0 } := by
  unfold Tier1State.enroll Tier1State.init
  rw [if_neg (by simp)]
  rw [meanAxis0_replicate, stdAxis0_replicate]
  simp only [List.map_replicate]
  rw [max_eq_right (by norm_num : (0 : ℝ) ≤ 0.01)]

/-! ## Concrete instances used by witnesses and counterexamples -/

/-- A 10-feature sample with every feature present and equal to 1. -/
def ones10 : List ℝ := [1, 1, 1, 1, 1, 1, 1, 1, 1, 1]

/-- A 10-feature sample with every feature present and equal to 2. -/
def twos10 : List ℝ := [2, 2, 2, 2, 2, 2, 2, 2, 2, 2]

/-- A sparse 10-feature sample: only one nonzero feature. -/
def sparseV : List ℝ := [100, 0, 0, 0, 0, 0, 0, 0, 0, 0]

/-- A location context that raises no location flags: every coordinate pair
is the origin, so both haversine distances are zero. -/
def zeroLoc : LocData := ⟨(0, 0), (0, 0), (0, 0), (0, 0), false⟩

/-- An enrolled profile with baseline `ones10` and unit deviation scales. -/
def profOnes : Tier1State :=
  { age := 30, alpha_mean := 0.05, alpha_std := 0.02,
    D_ref := ones10, D_std := ones10, is_enrolled := true, idle_count := 0 }

theorem profOnes_z :
    zScores ones10 profOnes.D_ref profOnes.D_std = List.replicate 10 0 := by
  show zScores ones10 ones10 ones10 = _
  rw [zScores_self]
  norm_num [ones10]

theorem profOnes_score :
    profOnes.compute_anomaly_score ones10 = some (0, List.replicate 10 0) := by
  unfold Tier1State.compute_anomaly_score
  rw [if_neg (by norm_num [ones10, countNonzero])]
  rw [profOnes_z]
  norm_num [mean_replicate_zero, profOnes]

theorem profOnes_flags :
    (profOnes.dynamic_rule_checks ones10 zeroLoc).1.1 = [] := by
  unfold Tier1State.dynamic_rule_checks
  simp only [profOnes_z, distLogin, zeroLoc, haversine_self]
  norm_num

/-! ## Claims -/

/-- C1: For every enrolled profile and every sample whose Tier 1 anomaly
score is computable: if the score is below 0.8 and the flag list is empty,
the Tier 1 decision is PASS and the profile update is invoked; if the score
is at or above 2.0 or more than one flag is raised, the decision is escalate
directly to Tier 3; in every other computable-score case the decision is
escalate to Tier 2; and if the score is unavailable the decision is SKIP,
the idle streak increments, and no escalation occurs. -/
theorem C1_tier1_decision_policy (s : Tier1State) (v : List ℝ) (loc : LocData)
    (hen : s.is_enrolled = true) :
    (∀ sc z, s.compute_anomaly_score v = some (sc, z) →
      ((sc < 0.8 ∧ (s.dynamic_rule_checks v loc).1.1 = []) →
        (s.authenticate v loc).1.decision = .pass ∧
        (s.authenticate v loc).2.1 =
          Tier1State.update_profile { s with idle_count := 0 } v) ∧
      ((sc ≥ 2.0 ∨ (s.dynamic_rule_checks v loc).1.1.length > 1) →
        (s.authenticate v loc).1.decision = .escalateT3) ∧
      ((¬(sc < 0.8 ∧ (s.dynamic_rule_checks v loc).1.1 = []) ∧
        ¬(sc ≥ 2.0 ∨ (s.dynamic_rule_checks v loc).1.1.length > 1)) →
        (s.authenticate v loc).1.decision = .escalateT2)) ∧
    (s.compute_anomaly_score v = none →
      (s.authenticate v loc).1.decision = .skipInterval ∧
      (s.authenticate v loc).2.1.idle_count = s.idle_count + 1) := by
  constructor
  · intro sc z hc
    refine ⟨?_, ?_, ?_⟩
    · intro hp
      unfold Tier1State.authenticate
      rw [hen]
      rw [if_neg (by simp : ¬(true = false))]
      simp only [hc]
      rw [if_pos hp]
      exact ⟨rfl, rfl⟩
    · intro h3
      have hnp : ¬(sc < 0.8 ∧ (s.dynamic_rule_checks v loc).1.1 = []) := by
        rcases h3 with h3 | h3
        · intro hp
          linarith [hp.1]
        · intro hp
          rw [hp.2] at h3
          simp at h3
      unfold Tier1State.authenticate
      rw [hen]
      rw [if_neg (by simp : ¬(true = false))]
      simp only [hc]
      rw [if_neg hnp, if_pos h3]
    · intro hmid
      unfold Tier1State.authenticate
      rw [hen]
      rw [if_neg (by simp : ¬(true = false))]
      simp only [hc]
      rw [if_neg hmid.1, if_neg hmid.2]
  · intro hc
    unfold Tier1State.authenticate
    rw [hen]
    rw [if_neg (by simp : ¬(true = false))]
    simp only [hc]
    exact ⟨by trivial, by trivial⟩

/-- C1 witness: the enrolled profile `profOnes` scores the baseline sample
`ones10` at 0 with no flags under a calm location, and the PASS branch of
the policy fires. -/
theorem C1_tier1_decision_policy_witness :
    (profOnes.authenticate ones10 zeroLoc).1.decision = .pass ∧
    (profOnes.authenticate ones10 zeroLoc).2.1 =
      Tier1State.update_profile { profOnes with idle_count := 0 } ones10 := by
  have h := (C1_tier1_decision_policy profOnes ones10 zeroLoc rfl).1 0
    (List.replicate 10 0) profOnes_score
  exact h.1 ⟨by norm_num, profOnes_flags⟩

/-- C2: In Tier 3 the final score is the fixed-weight fusion
`0.5·graphRisk + 0.2·driftAnomaly + 0.3·similarityRisk`, the decision is
BLOCK above 0.6, MANUAL_REVIEW on (0.35, 0.6], PASS at or below 0.35, and
the final score lies in [0,1] whenever each input risk does. -/
theorem C2_t3_fusion (t : Tier3State) (uid : String) (v_test v_ref : List ℝ)
    (hg0 : 0 ≤ t.get_gnn_risk uid) (hg1 : t.get_gnn_risk uid ≤ 1)
    (hd0 : 0 ≤ t.drift_anomaly uid v_test)
    (hd1 : t.drift_anomaly uid v_test ≤ 1)
    (hs0 : 0 ≤ 1 - t.similarity_engine v_ref v_test)
    (hs1 : 1 - t.similarity_engine v_ref v_test ≤ 1) :
    (t.authenticate uid v_test v_ref).1.final_score =
      0.5 * t.get_gnn_risk uid + 0.2 * t.drift_anomaly uid v_test +
        0.3 * (1 - t.similarity_engine v_ref v_test) ∧
    ((t.authenticate uid v_test v_ref).1.final_score > 0.6 →
      (t.authenticate uid v_test v_ref).1.decision = .block) ∧
    (0.35 < (t.authenticate uid v_test v_ref).1.final_score ∧
        (t.authenticate uid v_test v_ref).1.final_score ≤ 0.6 →
      (t.authenticate uid v_test v_ref).1.decision = .manualReview) ∧
    ((t.authenticate uid v_test v_ref).1.final_score ≤ 0.35 →
      (t.authenticate uid v_test v_ref).1.decision = .passVerified) ∧
    0 ≤ (t.authenticate uid v_test v_ref).1.final_score ∧
    (t.authenticate uid v_test v_ref).1.final_score ≤ 1 := by
  set g := t.get_gnn_risk uid with hg
  set d := t.drift_anomaly uid v_test with hd
  set sr := 1 - t.similarity_engine v_ref v_test with hsr
  have hfs : (t.authenticate uid v_test v_ref).1.final_score =
      g * 0.5 + d * 0.2 + (1.0 - t.similarity_engine v_ref v_test) * 0.3 := rfl
  have hsr2 : (1.0 : ℝ) - t.similarity_engine v_ref v_test = sr := by
    rw [hsr]
    norm_num
  rw [hsr2] at hfs
  have hdec : (t.authenticate uid v_test v_ref).1.decision =
      (if (t.authenticate uid v_test v_ref).1.final_score > 0.6 then
        T3Decision.block
       else if (t.authenticate uid v_test v_ref).1.final_score > 0.35 then
        T3Decision.manualReview
       else T3Decision.passVerified) := rfl
  refine ⟨by rw [hfs]; ring, ?_, ?_, ?_, ?_, ?_⟩
  · intro h
    rw [hdec, if_pos h]
  · intro h
    rw [hdec, if_neg (not_lt.mpr h.2), if_pos h.1]
  · intro h
    rw [hdec, if_neg (not_lt.mpr (by linarith)), if_neg (not_lt.mpr h)]
  · rw [hfs]
    linarith
  · rw [hfs]
    linarith

/-- The all-zero 10-feature vector. -/
def zeros10 : List ℝ := [0, 0, 0, 0, 0, 0, 0, 0, 0, 0]

/-- A Tier 3 state realizing Scenario E: the GNN assigns probability 0 to
the known user, the drift tracker predicts the test sample exactly with
zero log-variance, and the similarity engine returns 0. -/
def t3Ex : Tier3State :=
  { user_id_to_idx := fun u => if u = "u1" then some 0 else none,
    gnn_probs := fun _ => 0,
    drift_tracker := fun _ => (zeros10, zeros10),
    similarity_engine := fun _ _ => 0,
    user_history := fun u =>
      if u = "u1" then some (List.replicate 6 zeros10) else none }

theorem t3Ex_gnn : t3Ex.get_gnn_risk "u1" = 0 := by
  unfold Tier3State.get_gnn_risk t3Ex
  simp

theorem t3Ex_drift : t3Ex.drift_anomaly "u1" zeros10 = 0 := by
  have hred : t3Ex.drift_anomaly "u1" zeros10 =
      min (mean (nllList zeros10 zeros10 zeros10) / 5.0) 1.0 := rfl
  have hnll : nllList zeros10 zeros10 zeros10 = List.replicate 10 0 := by
    norm_num [zeros10, nllList, Real.exp_zero, List.replicate]
  rw [hred, hnll, mean_replicate_zero]
  rw [show (0 : ℝ) / 5.0 = 0 by norm_num]
  exact min_eq_left (by norm_num)

/-- C2 witness (Scenario E): graph risk 0, drift anomaly 0, similarity
risk 1 fuse to a final score of exactly 0.3 and a Tier 3 PASS. -/
theorem C2_t3_fusion_witness :
    (t3Ex.authenticate "u1" zeros10 zeros10).1.final_score = 0.3 ∧
    (t3Ex.authenticate "u1" zeros10 zeros10).1.decision = .passVerified := by
  have hs : t3Ex.similarity_engine zeros10 zeros10 = 0 := rfl
  have h := C2_t3_fusion t3Ex "u1" zeros10 zeros10
    (by rw [t3Ex_gnn]) (by rw [t3Ex_gnn]; norm_num)
    (by rw [t3Ex_drift]) (by rw [t3Ex_drift]; norm_num)
    (by rw [hs]; norm_num) (by rw [hs]; norm_num)
  have hfs : (t3Ex.authenticate "u1" zeros10 zeros10).1.final_score = 0.3 := by
    rw [h.1, t3Ex_gnn, t3Ex_drift, hs]
    norm_num
  exact ⟨hfs, h.2.2.2.1 (by rw [hfs]; norm_num)⟩

/-- `getD` distributes over `zipWith` at in-range indices. -/
theorem getD_zipWith (f : ℝ → ℝ → ℝ) :
    ∀ (l1 l2 : List ℝ) (i : ℕ), i < l1.length → i < l2.length →
      (List.zipWith f l1 l2).getD i 0 = f (l1.getD i 0) (l2.getD i 0)
  | a :: as_, b :: bs, 0, _, _ => rfl
  | a :: as_, b :: bs, n + 1, h1, h2 => by
    simp only [List.zipWith_cons_cons, List.getD_cons_succ]
    exact getD_zipWith f as_ bs n (by simpa using h1) (by simpa using h2)
  | [], _, i, h1, _ => absurd h1 (by simp)
  | _ :: _, [], i, _, h2 => absurd h2 (by simp)

/-- C3 counterexample: an enrolled profile sitting exactly at the 1e-2
deviation floor (five identical enrollment samples) drops below the floor
after a single EMA update with the baseline sample itself: component 0 of
`deviationScale` moves from 0.01 to 0.02·0 + 0.98·0.01 = 0.0098 < 0.01. -/
theorem C3_counterexample :
    ((Tier1State.init 30).enroll (List.replicate 5 ones10)).D_std.getD 0 0 =
      0.01 ∧
    (((Tier1State.init 30).enroll
        (List.replicate 5 ones10)).update_profile ones10).D_std.getD 0 0 <
      0.01 := by
  have hlen : ones10.length = 10 := by norm_num [ones10]
  rw [enroll_replicate, hlen]
  constructor
  · norm_num [List.replicate, List.getD]
  · unfold Tier1State.update_profile
    have hsc : Tier1State.compute_anomaly_score
        { age := 30, alpha_mean := 0.05, alpha_std := 0.02, D_ref := ones10,
          D_std := List.replicate 10 0.01, is_enrolled := true,
          idle_count := 0 } ones10 = some (0, List.replicate 10 0) := by
      unfold Tier1State.compute_anomaly_score
      rw [if_neg (by norm_num [ones10, countNonzero])]
      have hz : zScores ones10 ones10 (List.replicate 10 0.01) =
          List.replicate 10 0 := by
        rw [zScores_self]
        norm_num [hlen]
      simp only [hz]
      norm_num [mean_replicate_zero]
    simp only [hsc]
    rw [if_neg (by norm_num [ones10, countNonzero])]
    norm_num [ones10, List.replicate, List.getD]

/-- C3 amended: an EMA update of an enrolled profile can drop
`deviationScale` below the enrollment floor 1e-2 (see the counterexample),
but each update keeps every in-range component at least 0.98 times its
previous value, hence strictly positive. -/
theorem C3_amended_deviation_positive (s : Tier1State) (v : List ℝ) (i : ℕ)
    (has : s.alpha_std = 0.02)
    (hlr : s.D_ref.length = v.length) (hls : s.D_std.length = v.length)
    (hi : i < v.length) (hpos : 0 < s.D_std.getD i 0) :
    0.98 * s.D_std.getD i 0 ≤ (s.update_profile v).D_std.getD i 0 ∧
    0 < (s.update_profile v).D_std.getD i 0 := by
  unfold Tier1State.update_profile
  rcases hc : s.compute_anomaly_score v with _ | ⟨sc, z⟩
  · exact ⟨by linarith, hpos⟩
  · simp only [hc]
    by_cases hb : sc ≥ 1.5 ∨ countNonzero v < 6
    · rw [if_pos hb]
      exact ⟨by linarith, hpos⟩
    · rw [if_neg hb]
      have hl1 : (List.zipWith
          (fun vi ri => s.alpha_mean * vi + (1 - s.alpha_mean) * ri)
          v s.D_ref).length = v.length := by
        rw [List.length_zipWith, hlr, min_self]
      have hl2 : (List.zipWith (fun vi ri => |vi - ri|) v
          (List.zipWith
            (fun vi ri => s.alpha_mean * vi + (1 - s.alpha_mean) * ri)
            v s.D_ref)).length = v.length := by
        rw [List.length_zipWith, hl1, min_self]
      show 0.98 * s.D_std.getD i 0 ≤
          (List.zipWith (fun ni si => s.alpha_std * ni + (1 - s.alpha_std) * si)
            (List.zipWith (fun vi ri => |vi - ri|) v
              (List.zipWith
                (fun vi ri => s.alpha_mean * vi + (1 - s.alpha_mean) * ri)
                v s.D_ref))
            s.D_std).getD i 0 ∧
        0 < (List.zipWith (fun ni si => s.alpha_std * ni + (1 - s.alpha_std) * si)
            (List.zipWith (fun vi ri => |vi - ri|) v
              (List.zipWith
                (fun vi ri => s.alpha_mean * vi + (1 - s.alpha_mean) * ri)
                v s.D_ref))
            s.D_std).getD i 0
      rw [getD_zipWith _ _ _ i (by rw [hl2]; exact hi) (by rw [hls]; exact hi)]
      rw [getD_zipWith _ _ _ i hi (by rw [hl1]; exact hi)]
      have habs : 0 ≤ |v.getD i 0 - (List.zipWith
          (fun vi ri => s.alpha_mean * vi + (1 - s.alpha_mean) * ri)
          v s.D_ref).getD i 0| := abs_nonneg _
      rw [has]
      constructor
      · nlinarith
      · nlinarith

/-- C3 amended witness: updating `profOnes` with its own baseline keeps
every deviation component positive and at least 0.98 of its old value. -/
theorem C3_amended_deviation_positive_witness :
    0.98 * profOnes.D_std.getD 0 0 ≤
      (profOnes.update_profile ones10).D_std.getD 0 0 ∧
    0 < (profOnes.update_profile ones10).D_std.getD 0 0 :=
  C3_amended_deviation_positive profOnes ones10 0 rfl rfl rfl
    (by norm_num [ones10]) (by norm_num [profOnes, ones10, List.getD])

/-- C4 counterexample: on a sparse sample (1 nonzero feature) the decision
is the low-activity SKIP, yet the rule checks DID run: the returned flag
list carries the accuracy-deviation flag raised by `_dynamic_rule_checks`,
contradicting the claim that no further checks are executed. -/
theorem C4_counterexample :
    (profOnes.authenticate sparseV zeroLoc).1.decision = .skipInterval ∧
    (profOnes.authenticate sparseV zeroLoc).1.flags =
      [.suspiciousAccuracy] := by
  have hflags : (profOnes.dynamic_rule_checks sparseV zeroLoc).1.1 =
      [.suspiciousAccuracy] := by
    unfold Tier1State.dynamic_rule_checks
    simp only [distLogin, zeroLoc, haversine_self]
    norm_num [profOnes, sparseV, ones10, zScores, List.getD]
  have hcomp : profOnes.compute_anomaly_score sparseV = none := by
    unfold Tier1State.compute_anomaly_score
    rw [if_pos (by norm_num [sparseV, countNonzero])]
  unfold Tier1State.authenticate
  rw [show profOnes.is_enrolled = true from rfl,
    if_neg (by simp : ¬(true = false))]
  simp only [hcomp, hflags]
  exact ⟨by trivial, by trivial⟩

/-- C4 amended: a sample with fewer than 4 nonzero features has no anomaly
score, yields the SKIP decision, and increments the idle streak — but the
location and per-feature rule checks still execute (their flags are
computed, returned in the result, and the location context is mutated);
they simply do not influence the SKIP decision.  A sample with at least 4
nonzero features gets a computed, non-negative anomaly score. -/
theorem C4_amended_sparse_skip (s : Tier1State) (v : List ℝ) (loc : LocData)
    (hen : s.is_enrolled = true)
    (hstd : ∀ x ∈ s.D_std, 0 ≤ x) :
    (countNonzero v < 4 →
      s.compute_anomaly_score v = none ∧
      (s.authenticate v loc).1.decision = .skipInterval ∧
      (s.authenticate v loc).2.1.idle_count = s.idle_count + 1 ∧
      (s.authenticate v loc).1.flags = (s.dynamic_rule_checks v loc).1.1 ∧
      (s.authenticate v loc).2.2 =
        { loc with last_login := loc.current_session }) ∧
    (4 ≤ countNonzero v →
      ∃ sc z, s.compute_anomaly_score v = some (sc, z) ∧ 0 ≤ sc) := by
  constructor
  · intro hle
    have hcomp : s.compute_anomaly_score v = none := by
      unfold Tier1State.compute_anomaly_score
      rw [if_pos hle]
    refine ⟨hcomp, ?_, ?_, ?_, authenticate_loc s v loc hen⟩ <;>
      · unfold Tier1State.authenticate
        rw [hen, if_neg (by simp : ¬(true = false))]
        simp only [hcomp]
  · intro hge
    have hnn : 0 ≤ mean (zScores v s.D_ref s.D_std) :=
      mean_nonneg _ (zScores_nonneg v s.D_ref s.D_std hstd)
    refine ⟨if s.age ≥ 60 then mean (zScores v s.D_ref s.D_std) * 1.15
      else mean (zScores v s.D_ref s.D_std), zScores v s.D_ref s.D_std,
      ?_, ?_⟩
    · unfold Tier1State.compute_anomaly_score
      rw [if_neg (by omega)]
    · split
      · nlinarith
      · exact hnn

/-- C4 witness: `profOnes` on the dense `ones10` sample (10 nonzero
features) computes a non-negative anomaly score. -/
theorem C4_amended_sparse_skip_witness :
    ∃ sc z, profOnes.compute_anomaly_score ones10 = some (sc, z) ∧ 0 ≤ sc :=
  (C4_amended_sparse_skip profOnes ones10 zeroLoc rfl
    (by norm_num [profOnes, ones10])).2 (by norm_num [ones10, countNonzero])

/-- A sparse sample has no computable anomaly score against `profOnes`. -/
theorem profOnes_sparse_none :
    profOnes.compute_anomaly_score sparseV = none := by
  unfold Tier1State.compute_anomaly_score
  rw [if_pos (by norm_num [sparseV, countNonzero])]

/-- C5: The profile update is a no-op whenever the anomaly score of the
incoming sample is unavailable, at or above 1.5, or fewer than 6 features
are nonzero; otherwise it applies the EMA updates
`referenceVector ← 0.05·sample + 0.95·referenceVector` and
`deviationScale ← 0.02·|sample − referenceVector1| + 0.98·deviationScale`,
where `referenceVector1` is the already-updated reference vector. -/
theorem C5_update_frame (s : Tier1State) (v : List ℝ)
    (ham : s.alpha_mean = 0.05) (has : s.alpha_std = 0.02) :
    ((s.compute_anomaly_score v = none ∨
      (∃ sc z, s.compute_anomaly_score v = some (sc, z) ∧ sc ≥ 1.5) ∨
      countNonzero v < 6) → s.update_profile v = s) ∧
    (∀ sc z, s.compute_anomaly_score v = some (sc, z) → sc < 1.5 →
      6 ≤ countNonzero v →
      s.update_profile v = { s with
        D_ref := List.zipWith (fun vi ri => 0.05 * vi + 0.95 * ri) v s.D_ref,
        D_std := List.zipWith (fun ni si => 0.02 * ni + 0.98 * si)
          (List.zipWith (fun vi ri => |vi - ri|) v
            (List.zipWith (fun vi ri => 0.05 * vi + 0.95 * ri) v s.D_ref))
          s.D_std }) := by
  constructor
  · intro h
    unfold Tier1State.update_profile
    rcases h with h | ⟨sc, z, hc, hge⟩ | h
    · simp only [h]
    · simp only [hc]
      rw [if_pos (Or.inl hge)]
    · rcases hc : s.compute_anomaly_score v with _ | ⟨sc, z⟩
      · rfl
      · simp only [hc]
        rw [if_pos (Or.inr h)]
  · intro sc z hc hlt hge
    unfold Tier1State.update_profile
    simp only [hc]
    rw [if_neg (by rw [not_or]; exact ⟨not_le.mpr hlt, by omega⟩)]
    have hf : (fun vi ri : ℝ => s.alpha_mean * vi + (1 - s.alpha_mean) * ri) =
        (fun vi ri : ℝ => 0.05 * vi + 0.95 * ri) := by
      funext a b
      rw [ham]
      norm_num
    have hg : (fun ni si : ℝ => s.alpha_std * ni + (1 - s.alpha_std) * si) =
        (fun ni si : ℝ => 0.02 * ni + 0.98 * si) := by
      funext a b
      rw [has]
      norm_num
    show ({ s with
        D_ref := List.zipWith
          (fun vi ri => s.alpha_mean * vi + (1 - s.alpha_mean) * ri) v s.D_ref,
        D_std := List.zipWith
          (fun ni si => s.alpha_std * ni + (1 - s.alpha_std) * si)
          (List.zipWith (fun vi ri => |vi - ri|) v
            (List.zipWith
              (fun vi ri => s.alpha_mean * vi + (1 - s.alpha_mean) * ri)
              v s.D_ref))
          s.D_std } : Tier1State) = _
    rw [hf, hg]

/-- C5 witness: the no-op branch fires for the sparse sample (score
unavailable), leaving `profOnes` unchanged. -/
theorem C5_update_frame_witness :
    profOnes.update_profile sparseV = profOnes :=
  (C5_update_frame profOnes sparseV rfl rfl).1 (Or.inl profOnes_sparse_none)

/-- A profile against which `twos10` scores exactly 1: every z-score is
`|2 - 1| / ((1 - 1e-8) + 1e-8) = 1`, so the anomaly score is 1 — inside the
escalate-to-Tier-2 band [0.8, 2.0) — and no flags fire under `zeroLoc`. -/
def profT2 : Tier1State :=
  { age := 30, alpha_mean := 0.05, alpha_std := 0.02,
    D_ref := ones10, D_std := List.replicate 10 (1 - 1e-8),
    is_enrolled := true, idle_count := 0 }

theorem profT2_z :
    zScores twos10 profT2.D_ref profT2.D_std = List.replicate 10 1 := by
  show zScores twos10 ones10 (List.replicate 10 (1 - 1e-8)) = _
  norm_num [twos10, ones10, zScores, List.replicate]

theorem profT2_score :
    profT2.compute_anomaly_score twos10 = some (1, List.replicate 10 1) := by
  unfold Tier1State.compute_anomaly_score
  rw [if_neg (by norm_num [twos10, countNonzero])]
  rw [profT2_z]
  have hm : mean (List.replicate 10 (1 : ℝ)) = 1 := by
    unfold mean
    rw [List.sum_replicate, List.length_replicate, nsmul_eq_mul]
    norm_num
  norm_num [hm, profT2]

theorem profT2_flags :
    (profT2.dynamic_rule_checks twos10 zeroLoc).1.1 = [] := by
  unfold Tier1State.dynamic_rule_checks
  simp only [profT2_z, distLogin, zeroLoc, haversine_self]
  norm_num [twos10, List.replicate, List.getD]

theorem profT2_escalate :
    (profT2.authenticate twos10 zeroLoc).1.decision = .escalateT2 := by
  unfold Tier1State.authenticate
  rw [show profT2.is_enrolled = true from rfl,
    if_neg (by simp : ¬(true = false))]
  simp only [profT2_score, profT2_flags]
  rw [if_neg (by norm_num), if_neg (by norm_num)]

/-- A Tier 3 state with no graph nodes and no history (not exercised by the
Tier 2 PASS path). -/
def t3Dummy : Tier3State :=
  { user_id_to_idx := fun _ => none, gnn_probs := fun _ => 0,
    drift_tracker := fun _ => ([], []), similarity_engine := fun _ _ => 0,
    user_history := fun _ => none }

/-- An orchestrator whose Tier 2 scorer simply reveals the third element of
the context vector it receives (an admissible opaque scorer). -/
def orchC6 : Orchestrator :=
  { user_profiles := fun u => if u = "u1" then some profT2 else none,
    scaler := fun l => l,
    t2_model := fun _ _ ctx => ctx.getD 2 0,
    t3 := t3Dummy }

/-- The request that escalates `profT2` to Tier 2. -/
def reqC6 : Request := ⟨"u1", 30, twos10, zeroLoc⟩

/-- C6 (code bug): for this escalated request Tier 1 computed the anomaly
score 1, yet the context vector element that should carry it holds the
default 1.5: the Tier 2 scorer that echoes its third context element
returns 1.5, because `tier1.py` never puts a `"score"` key in its result
dict and `t1_result.get('score', 1.5)` therefore always yields the
default. -/
theorem C6_context_score_always_default :
    (profT2.compute_anomaly_score twos10).map Prod.fst = some 1 ∧
    (1 : ℝ) ≠ 1.5 ∧
    (orchC6.authenticate_session reqC6).1 =
      { tier := .t2, decision := .t2Pass, score := some 1.5,
        final_score := none } := by
  refine ⟨by rw [profT2_score]; rfl, by norm_num, ?_⟩
  have hprof : orchC6.user_profiles "u1" = some profT2 := by
    unfold orchC6
    simp
  unfold Orchestrator.authenticate_session
  rw [show reqC6.user_id = "u1" from rfl]
  rw [if_pos (by rw [hprof]; rfl)]
  simp only [hprof]
  rw [show reqC6.behavioral_vector = twos10 from rfl,
    show reqC6.location_info = zeroLoc from rfl]
  simp only [profT2_escalate, t1_result_score_none]
  have hctx : orchC6.t2_model (orchC6.scaler profT2.D_ref)
      (orchC6.scaler twos10)
      (create_context_vector profT2.D_ref twos10 reqC6.age
        (Option.getD none 1.5) zeroLoc.is_traveling) = 1.5 := by
    unfold orchC6 create_context_vector
    norm_num [List.getD]
  rw [hctx]
  rw [if_pos (by norm_num : (1.5 : ℝ) ≥ 0.8)]

/-- C7: For every user id unknown to the graph the graph-risk signal
defaults to exactly 0.1; for every user with no stored history, or a stored
history of fewer than 6 entries, the drift-anomaly signal defaults to
exactly 0.1; with at least 6 entries the drift anomaly is the mean
negative log-likelihood under the tracker's prediction divided by the
normalizer 5 and clamped at 1. -/
theorem C7_t3_defaults (t : Tier3State) (uid : String) (v_test : List ℝ) :
    (t.user_id_to_idx uid = none → t.get_gnn_risk uid = 0.1) ∧
    (t.user_history uid = none → t.drift_anomaly uid v_test = 0.1) ∧
    (∀ h, t.user_history uid = some h → h.length < 6 →
      t.drift_anomaly uid v_test = 0.1) ∧
    (∀ h, t.user_history uid = some h → 6 ≤ h.length →
      t.drift_anomaly uid v_test =
        min (mean (nllList (t.drift_tracker h).1 (t.drift_tracker h).2 v_test)
          / 5.0) 1.0) := by
  refine ⟨?_, ?_, ?_, ?_⟩
  · intro h
    unfold Tier3State.get_gnn_risk
    simp only [h]
  · intro h
    unfold Tier3State.drift_anomaly
    simp only [h]
  · intro hist hh hlen
    unfold Tier3State.drift_anomaly
    simp only [hh]
    rw [if_neg (by omega)]
  · intro hist hh hlen
    unfold Tier3State.drift_anomaly
    simp only [hh]
    rw [if_pos (by omega)]

/-- C7 witness: an id absent from both the graph map and the history store
receives the 0.1 defaults for both signals. -/
theorem C7_t3_defaults_witness :
    t3Dummy.get_gnn_risk "ghost" = 0.1 ∧
    t3Dummy.drift_anomaly "ghost" zeros10 = 0.1 :=
  ⟨(C7_t3_defaults t3Dummy "ghost" zeros10).1 rfl,
   (C7_t3_defaults t3Dummy "ghost" zeros10).2.1 rfl⟩

/-- C8: For every request reaching Tier 2, a similarity score at or above
0.8 (inclusive) yields a terminal Tier 2 PASS with the score attached, and
any score below 0.8 escalates the request to Tier 3, whose outcome is
returned. -/
theorem C8_tier2_threshold (o : Orchestrator) (req : Request)
    (s : Tier1State)
    (hprof : o.user_profiles req.user_id = some s)
    (hesc : (s.authenticate req.behavioral_vector
        req.location_info).1.decision = .escalateT2) :
    ((0.8 : ℝ) ≤ o.t2_model (o.scaler s.D_ref)
        (o.scaler req.behavioral_vector)
        (create_context_vector s.D_ref req.behavioral_vector req.age
          ((s.authenticate req.behavioral_vector
            req.location_info).1.score?.getD 1.5)
          req.location_info.is_traveling) →
      (o.authenticate_session req).1 =
        { tier := .t2, decision := .t2Pass,
          score := some (o.t2_model (o.scaler s.D_ref)
            (o.scaler req.behavioral_vector)
            (create_context_vector s.D_ref req.behavioral_vector req.age
              ((s.authenticate req.behavioral_vector
                req.location_info).1.score?.getD 1.5)
              req.location_info.is_traveling)),
          final_score := none }) ∧
    (o.t2_model (o.scaler s.D_ref) (o.scaler req.behavioral_vector)
        (create_context_vector s.D_ref req.behavioral_vector req.age
          ((s.authenticate req.behavioral_vector
            req.location_info).1.score?.getD 1.5)
          req.location_info.is_traveling) < 0.8 →
      (o.authenticate_session req).1 =
        { tier := .t3,
          decision := .t3 ((o.t3.authenticate req.user_id
            req.behavioral_vector s.D_ref).1.decision),
          score := none,
          final_score := some ((o.t3.authenticate req.user_id
            req.behavioral_vector s.D_ref).1.final_score) }) := by
  constructor
  · intro hge
    unfold Orchestrator.authenticate_session
    rw [if_pos (by rw [hprof]; rfl)]
    simp only [hprof, hesc]
    rw [if_pos hge]
  · intro hlt
    unfold Orchestrator.authenticate_session
    rw [if_pos (by rw [hprof]; rfl)]
    simp only [hprof, hesc]
    rw [if_neg (not_le.mpr hlt)]

/-- An orchestrator whose Tier 2 scorer returns exactly the threshold 0.8. -/
def orchC8 : Orchestrator :=
  { user_profiles := fun u => if u = "u1" then some profT2 else none,
    scaler := fun l => l,
    t2_model := fun _ _ _ => 0.8,
    t3 := t3Dummy }

/-- C8 witness (Scenario D): a Tier 2 similarity score of exactly 0.8
passes — the threshold is inclusive. -/
theorem C8_tier2_threshold_witness :
    (orchC8.authenticate_session reqC6).1 =
      { tier := .t2, decision := .t2Pass, score := some 0.8,
        final_score := none } :=
  (C8_tier2_threshold orchC8 reqC6 profT2
      (by unfold orchC8; simp [reqC6]) profT2_escalate).1 (by norm_num [orchC8])

/-- An orchestrator with no enrolled users. -/
def orchFresh : Orchestrator :=
  { user_profiles := fun _ => none, scaler := fun l => l,
    t2_model := fun _ _ _ => 0, t3 := t3Dummy }

/-- The profile the bootstrap enrollment builds from `sparseV`. -/
def profSparse : Tier1State :=
  { age := 30, alpha_mean := 0.05, alpha_std := 0.02, D_ref := sparseV,
    D_std := List.replicate 10 0.01, is_enrolled := true, idle_count := 0 }

theorem enroll_sparse :
    (Tier1State.init 30).enroll (List.replicate 5 sparseV) = profSparse := by
  rw [enroll_replicate]
  unfold profSparse
  norm_num [sparseV]

theorem profSparse_skip :
    (profSparse.authenticate sparseV zeroLoc).1.decision = .skipInterval := by
  have hcomp : profSparse.compute_anomaly_score sparseV = none := by
    unfold Tier1State.compute_anomaly_score
    rw [if_pos (by norm_num [sparseV, countNonzero])]
  unfold Tier1State.authenticate
  rw [show profSparse.is_enrolled = true from rfl,
    if_neg (by simp : ¬(true = false))]
  simp only [hcomp]

/-- C9 counterexample: a fresh user whose very first sample is sparse
(1 nonzero feature) is auto-enrolled, but the first call returns the
low-activity SKIP decision, not PASS. -/
theorem C9_counterexample :
    (orchFresh.authenticate_session
      ⟨"u1", 30, sparseV, zeroLoc⟩).1.decision = .t1 .skipInterval ∧
    (orchFresh.authenticate_session
      ⟨"u1", 30, sparseV, zeroLoc⟩).1.decision ≠ .t1 .pass := by
  have ho1 : (orchFresh.enroll_user "u1" 30 (List.replicate 5 sparseV)
      (List.replicate 15 sparseV)).user_profiles "u1" = some profSparse := by
    unfold Orchestrator.enroll_user
    rw [if_neg (by simp [orchFresh])]
    show (if ("u1" : String) = "u1" then
        some ((Tier1State.init 30).enroll (List.replicate 5 sparseV))
      else orchFresh.user_profiles "u1") = some profSparse
    rw [if_pos rfl, enroll_sparse]
  have hd : (orchFresh.authenticate_session
      ⟨"u1", 30, sparseV, zeroLoc⟩).1.decision = .t1 .skipInterval := by
    unfold Orchestrator.authenticate_session
    rw [if_neg (by simp [orchFresh])]
    simp only [ho1, profSparse_skip]
  exact ⟨hd, by rw [hd]; simp⟩

/-- C9 amended: the first call for a fresh user auto-enrolls by replicating
the sample, so the reference vector equals the sample and all z-scores of
that call are zero; the decision is PASS provided the sample has at least 4
nonzero features and the location context raises no flags — a sparse first
sample yields SKIP instead (see the counterexample). -/
theorem C9_amended_first_call (o : Orchestrator) (uid : String) (age : ℕ)
    (v : List ℝ) (loc : LocData)
    (hfresh : o.user_profiles uid = none)
    (hdense : ¬(countNonzero v < 4))
    (hflags : (((Tier1State.init age).enroll
      (List.replicate 5 v)).dynamic_rule_checks v loc).1.1 = []) :
    ((Tier1State.init age).enroll (List.replicate 5 v)).D_ref = v ∧
    zScores v ((Tier1State.init age).enroll (List.replicate 5 v)).D_ref
      ((Tier1State.init age).enroll (List.replicate 5 v)).D_std =
      List.replicate v.length 0 ∧
    (o.authenticate_session ⟨uid, age, v, loc⟩).1 =
      { tier := .t1, decision := .t1 .pass, score := none,
        final_score := none } := by
  have henroll := enroll_replicate age v
  have hz : zScores v v (List.replicate v.length 0.01) =
      List.replicate v.length 0 := by
    rw [zScores_self]
    simp
  have hsc : (((Tier1State.init age).enroll
      (List.replicate 5 v)).compute_anomaly_score v) =
      some (0, List.replicate v.length 0) := by
    rw [henroll]
    unfold Tier1State.compute_anomaly_score
    rw [if_neg hdense]
    simp only [hz]
    rw [mean_replicate_zero]
    split <;> norm_num
  have hdec : ((((Tier1State.init age).enroll
      (List.replicate 5 v)).authenticate v loc)).1.decision = .pass := by
    rw [henroll] at hsc hflags ⊢
    unfold Tier1State.authenticate
    rw [if_neg (by simp : ¬(true = false))]
    simp only [hsc, hflags]
    rw [if_pos ⟨by norm_num, by trivial⟩]
  refine ⟨by rw [henroll], by rw [henroll]; exact hz, ?_⟩
  have ho1 : (o.enroll_user uid age (List.replicate 5 v)
      (List.replicate 15 v)).user_profiles uid =
      some ((Tier1State.init age).enroll (List.replicate 5 v)) := by
    unfold Orchestrator.enroll_user
    rw [if_neg (by simp [hfresh])]
    simp
  unfold Orchestrator.authenticate_session
  rw [if_neg (by simp [hfresh])]
  simp only [ho1, hdec]

/-- C9 witness: a fresh user with the dense sample `ones10` and a calm
location gets reference vector `ones10`, all-zero z-scores, and PASS on the
first call. -/
theorem C9_amended_first_call_witness :
    ((Tier1State.init 30).enroll (List.replicate 5 ones10)).D_ref = ones10 ∧
    zScores ones10 ((Tier1State.init 30).enroll
        (List.replicate 5 ones10)).D_ref
      ((Tier1State.init 30).enroll (List.replicate 5 ones10)).D_std =
      List.replicate ones10.length 0 ∧
    (orchFresh.authenticate_session ⟨"u2", 30, ones10, zeroLoc⟩).1 =
      { tier := .t1, decision := .t1 .pass, score := none,
        final_score := none } := by
  have hflags : (((Tier1State.init 30).enroll
      (List.replicate 5 ones10)).dynamic_rule_checks ones10 zeroLoc).1.1 =
      [] := by
    rw [enroll_replicate]
    unfold Tier1State.dynamic_rule_checks
    simp only [distLogin, zeroLoc, haversine_self]
    have hz10 : zScores ones10 ones10 (List.replicate ones10.length 0.01) =
        List.replicate ones10.length 0 := by
      rw [zScores_self]
      simp
    simp only [hz10]
    norm_num [ones10, List.replicate, List.getD]
  exact C9_amended_first_call orchFresh "u2" 30 ones10 zeroLoc rfl
    (by norm_num [ones10, countNonzero]) hflags

/-- A location context whose stored last login is far from the current
session coordinates. -/
def locFar : LocData := ⟨(5, 5), (0, 0), (0, 0), (0, 0), false⟩

/-- C10: On an enrolled profile every `authenticate` call rewrites the
location context's last-login coordinates to the current session
coordinates, so a repeated call reusing the same (mutated) location context
computes a login travel distance of zero regardless of the original
last-login value. -/
theorem C10_location_mutation (s : Tier1State) (v : List ℝ) (loc : LocData)
    (hen : s.is_enrolled = true) :
    ((s.authenticate v loc).2.2).last_login = loc.current_session ∧
    ((s.authenticate v loc).2.2).current_session = loc.current_session ∧
    distLogin ((s.authenticate v loc).2.2) = 0 := by
  rw [authenticate_loc s v loc hen]
  refine ⟨rfl, rfl, ?_⟩
  unfold distLogin
  exact haversine_self _ _

/-- C10 witness: a last login stored far away is overwritten by the call; the
mutated context then yields a zero login distance. -/
theorem C10_location_mutation_witness :
    ((profOnes.authenticate ones10 locFar).2.2).last_login = (0, 0) ∧
    ((profOnes.authenticate ones10 locFar).2.2).current_session = (0, 0) ∧
    distLogin ((profOnes.authenticate ones10 locFar).2.2) = 0 :=
  C10_location_mutation profOnes ones10 locFar rfl

end

end CanGuard